import Mathlib

/-!
Verification development for the claimvoyant claim-processing pipeline.

Each Python lambda stage is shallowly embedded as a total Lean function.
External capability calls (Textract, Rekognition, Weaviate, Bedrock) are
modelled as oracle parameters carrying the outcome of the call; the two
append-only stores (the Claims table and the AuditLog table) are modelled
by the values the handlers would write, returned alongside the result.
Python dicts with a fixed key set become structures whose nullable values
are Options; a dict that may be absent altogether is an Option of the
structure, with none standing for the empty-dict default.
Floats are modelled as exact rationals, timestamps and versions as strings
ordered lexicographically by code point, matching Python string comparison.
-/

/-- Rekognition label: name plus confidence, as produced by analyze_image. -/
structure Label where
  name : String
  confidence : ℚ
deriving DecidableEq, Repr

/-- Entity mapping produced by extract_entities: exactly five keys, each
nullable.  The source initialises all five to None and only ever assigns
policy_number and incident_date. -/
structure Entities where
  policy_number : Option String
  claimant_name : Option String
  incident_date : Option String
  incident_location : Option String
  vehicle_info : Option String
deriving DecidableEq, Repr

/-- Python truthiness test for an optional string: None and the empty
string are falsy.  Used for `not bucket or not key` and `x or default`. -/
def falsyStr : Option String → Bool
  | none => true
  | some s => s = ""

/-- Python f-string rendering of a possibly-None string value. -/
def pyStr : Option String → String
  | none => "None"
  | some s => s

/-! ### Regex engine for the two fixed patterns of extract_entities

The source searches with Python re.search, which returns the leftmost
match, trying alternatives left to right at each position, with greedy
backtracking quantifiers.  The two patterns are fixed, so we embed a
matcher for each rather than a general engine.  Matching is on lists of
characters; case-insensitive literal comparison returns the original
(uncased) characters of the text, as re.Match.group does. -/

/-- Python regex word character, restricted to ASCII as used by the repo. -/
def isWordChar (c : Char) : Bool := c.isAlphanum || c = '_'

/-- Python regex whitespace, ASCII subset. -/
def isSpaceChar (c : Char) : Bool :=
  c = ' ' || c = '\t' || c = '\n' || c = '\r' || c = '\x0b' || c = '\x0c'

/-- Case-insensitive character comparison (ASCII lowering, as in re.I). -/
def eqCI (a b : Char) : Bool := a.toLower = b.toLower

/-- Match a literal case-insensitively at the head of the text, returning
the consumed original characters and the rest. -/
def matchLitCI : List Char → List Char → Option (List Char × List Char)
  | [], s => some ([], s)
  | _ :: _, [] => none
  | l :: ls, c :: cs =>
    if eqCI l c then
      match matchLitCI ls cs with
      | some (con, rest) => some (c :: con, rest)
      | none => none
    else none

/-- Match the alternative AUTO-\d+ at the head of the text (greedy digits). -/
def matchAuto (s : List Char) : Option (List Char) :=
  match matchLitCI "AUTO-".toList s with
  | some (con, rest) =>
    let ds := rest.takeWhile Char.isDigit
    if ds.isEmpty then none else some (con ++ ds)
  | none => none

/-- Match the alternative POL-\d+ at the head of the text. -/
def matchPol (s : List Char) : Option (List Char) :=
  match matchLitCI "POL-".toList s with
  | some (con, rest) =>
    let ds := rest.takeWhile Char.isDigit
    if ds.isEmpty then none else some (con ++ ds)
  | none => none

/-- Backtracking match of the group \w+-?\d+ at the head of the text:
\w+ takes k characters from its maximal run (largest k first); for each k
the optional hyphen is tried greedily, then \d+ needs at least one digit. -/
def policyTailGo (s : List Char) : Nat → Option (List Char)
  | 0 => none
  | k + 1 =>
    let afterK := s.drop (k + 1)
    let hyp :=
      match afterK with
      | '-' :: rest2 =>
        let ds := rest2.takeWhile Char.isDigit
        if ds.isEmpty then none else some (s.take (k + 1) ++ '-' :: ds)
      | _ => none
    match hyp with
    | some m => some m
    | none =>
      let ds := afterK.takeWhile Char.isDigit
      if ds.isEmpty then policyTailGo s k else some (s.take (k + 1) ++ ds)

/-- Match \w+-?\d+ at the head of the text. -/
def policyTail (s : List Char) : Option (List Char) :=
  policyTailGo s (s.takeWhile isWordChar).length

/-- Match the alternative POLICY[:\s]+(\w+-?\d+).  The separator class and
\w are disjoint, so the greedy maximal run of separators never needs to
backtrack. -/
def matchPolicyKw (s : List Char) : Option (List Char) :=
  match matchLitCI "POLICY".toList s with
  | none => none
  | some (con, rest) =>
    let seps := rest.takeWhile (fun c => c = ':' || isSpaceChar c)
    if seps.isEmpty then none
    else
      match policyTail (rest.drop seps.length) with
      | none => none
      | some t => some (con ++ seps ++ t)

/-- Leftmost match of (AUTO-\d+|POL-\d+|POLICY[:\s]+(\w+-?\d+)) with re.I,
alternatives tried in order at each position, as re.search does.  Returns
the text of capture group 1 (the whole alternation). -/
def searchPolicyNumber : List Char → Option (List Char)
  | [] => none
  | s@(_ :: rest) =>
    match matchAuto s with
    | some m => some m
    | none =>
      match matchPol s with
      | some m => some m
      | none =>
        match matchPolicyKw s with
        | some m => some m
        | none => searchPolicyNumber rest

/-- Match \d{4}-\d{2}-\d{2} at the head of the text (exact counts). -/
def matchIsoDate (s : List Char) : Option (List Char) :=
  match s with
  | a :: b :: c :: d :: '-' :: e :: f :: '-' :: g :: h :: _ =>
    if a.isDigit && b.isDigit && c.isDigit && d.isDigit &&
       e.isDigit && f.isDigit && g.isDigit && h.isDigit then
      some [a, b, c, d, '-', e, f, '-', g, h]
    else none
  | _ => none

/-- Greedy \d{1,2} with backtracking: try two digits first, fall back to
one when the continuation fails, as the Python engine does. -/
def matchD12 (t : List Char) (k : List Char → List Char → Option (List Char)) :
    Option (List Char) :=
  match t with
  | a :: b :: rest =>
    if a.isDigit then
      if b.isDigit then
        match k [a, b] rest with
        | some m => some m
        | none => k [a] (b :: rest)
      else k [a] (b :: rest)
    else none
  | [a] => if a.isDigit then k [a] [] else none
  | [] => none

/-- Match \d{1,2}/\d{1,2}/\d{4} at the head of the text. -/
def matchSlashDate (s : List Char) : Option (List Char) :=
  matchD12 s fun d1 r1 =>
    match r1 with
    | '/' :: r2 =>
      matchD12 r2 fun d2 r3 =>
        match r3 with
        | '/' :: a :: b :: c :: d :: _ =>
          if a.isDigit && b.isDigit && c.isDigit && d.isDigit then
            some (d1 ++ '/' :: d2 ++ '/' :: [a, b, c, d])
          else none
        | _ => none
    | _ => none

/-- Leftmost match of (\d{4}-\d{2}-\d{2}|\d{1,2}/\d{1,2}/\d{4}). -/
def searchDate : List Char → Option (List Char)
  | [] => none
  | s@(_ :: rest) =>
    match matchIsoDate s with
    | some m => some m
    | none =>
      match matchSlashDate s with
      | some m => some m
      | none => searchDate rest

/-- Embedding of extract_entities: initialises all five entities to None,
then assigns policy_number and incident_date from the first match of the
respective pattern, leaving them None when no match exists. -/
def extract_entities (text : String) : Entities :=
  { policy_number := (searchPolicyNumber text.toList).map List.asString
    claimant_name := none
    incident_date := (searchDate text.toList).map List.asString
    incident_location := none
    vehicle_info := none }

/-! ### Intake stage (src/functions/intake/lambda_function.py) -/

/-- The extracted_data mapping assembled by the Intake handler.  The keys
present depend on the branch taken; absent keys are None.  file_type is
assigned by the handler after the helper returns, so the helpers leave it
None. -/
structure ExtractedData where
  text : Option String := none
  job_id : Option String := none
  labels : Option (List Label) := none
  detected_text : Option String := none
  file_type : Option String := none
  error : Option String := none
deriving DecidableEq, Repr

/-- Embedding of extract_text_from_pdf.  The Textract call (job start,
poll loop and block concatenation) is the external text-extraction
capability; its outcome is the oracle parameter: ok with the final
stripped text, or error with the exception text.  A fault yields
text set to the empty string plus an error key, as the except branch does. -/
def extract_text_from_pdf (job_id : String) (outcome : Except String String) :
    ExtractedData :=
  match outcome with
  | .ok t => { text := some t, job_id := some job_id }
  | .error e => { text := some "", error := some e }

/-- Embedding of analyze_image.  The Rekognition calls are the external
image-analysis capability; ok carries (labels, joined line text).  A fault
yields empty labels and detected_text plus an error key. -/
def analyze_image (outcome : Except String (List Label × String)) : ExtractedData :=
  match outcome with
  | .ok (ls, dt) => { labels := some ls, detected_text := some dt }
  | .error e => { labels := some [], detected_text := some "", error := some e }

/-- Direct-invocation intake event (bucket, key, optional claim_id); the
S3-Records trigger always supplies bucket and key, so the direct shape is
the general one. -/
structure IntakeEvent where
  bucket : Option String
  key : Option String
  claim_id : Option String
deriving DecidableEq, Repr

/-- Audit details written by the Intake stage: bucket, key, file_type and
the extracted entities.  There is no field describing the content-index
write. -/
structure IntakeDetails where
  bucket : String
  key : String
  file_type : Option String
  entities : Entities
deriving DecidableEq, Repr

/-- AuditLog item written by the Intake stage. -/
structure IntakeAudit where
  log_id : String
  timestamp : String
  claim_id : String
  agent : String
  action : String
  status : String
  details : IntakeDetails
deriving DecidableEq, Repr

/-- Weaviate ClaimArtifacts object inserted by the Intake stage. -/
structure Artifact where
  claim_id : String
  s3_bucket : String
  s3_key : String
  file_type : String
  extracted_text : String
  entities : Entities
  metadata : ExtractedData
deriving DecidableEq, Repr

/-- Return value of the Intake handler: the 200 payload or the 500 error. -/
inductive IntakeResult where
  | ok (claim_id bucket key : String) (extracted_data : ExtractedData)
      (entities : Entities)
  | err (error : String)
deriving DecidableEq, Repr

/-- HTTP-style status code of an intake result. -/
def IntakeResult.statusCode : IntakeResult → Nat
  | .ok _ _ _ _ _ => 200
  | .err _ => 500

/-- Everything the Intake handler produces: its return value, the audit
entries written to the AuditLog table, and the artifacts successfully
inserted into the content index. -/
structure IntakeOutput where
  result : IntakeResult
  audit : List IntakeAudit
  artifacts : List Artifact
deriving DecidableEq, Repr

/-- Python key.lower().split(".")[-1]. -/
def fileExtension (key : String) : String :=
  (key.toLower.splitOn ".").getLastD ""

/-- Embedding of the Intake lambda_handler (direct invocation).  now is
the datetime.now() rendering used for the generated claim id and the audit
timestamp; pdfOutcome and imgOutcome are the external-capability oracles
for the branch taken; weaviateOk tells whether the content-index insert
succeeded (its failure is swallowed by the source).  A missing or empty
bucket or key raises ValueError, which the outer except converts into a
500 result without writing any audit entry. -/
def intake_lambda_handler (event : IntakeEvent) (now job_id : String)
    (pdfOutcome : Except String String)
    (imgOutcome : Except String (List Label × String))
    (weaviateOk : Bool) : IntakeOutput :=
  if falsyStr event.bucket || falsyStr event.key then
    { result := .err "Missing bucket or key in event", audit := [], artifacts := [] }
  else
    let bucket := event.bucket.getD ""
    let key := event.key.getD ""
    let claim_id :=
      if falsyStr event.claim_id then "CLAIM-" ++ now else event.claim_id.getD ""
    let ext := fileExtension key
    let extracted_data : ExtractedData :=
      if ext = "pdf" then
        { extract_text_from_pdf job_id pdfOutcome with file_type := some "pdf" }
      else if ext = "jpg" || ext = "jpeg" || ext = "png" then
        { analyze_image imgOutcome with file_type := some "image" }
      else
        { file_type := some "unknown", error := some ("Unsupported file type: " ++ ext) }
    let text_content :=
      extracted_data.text.getD "" ++ " " ++ extracted_data.detected_text.getD ""
    let entities := extract_entities text_content
    let artifacts :=
      if weaviateOk then
        [{ claim_id := claim_id, s3_bucket := bucket, s3_key := key,
           file_type := extracted_data.file_type.getD "unknown",
           extracted_text := text_content.take 50000,
           entities := entities, metadata := extracted_data }]
      else []
    let status :=
      match extracted_data.error with
      | none => "success"
      | some m => if m = "" then "success" else "error"
    { result := .ok claim_id bucket key extracted_data entities
      audit := [{ log_id := claim_id ++ "-intake", timestamp := now,
                  claim_id := claim_id, agent := "intake",
                  action := "extract_data", status := status,
                  details := { bucket := bucket, key := key,
                               file_type := extracted_data.file_type,
                               entities := entities } }]
      artifacts := artifacts }

/-! ### Policy Resolution stage (src/functions/policy/lambda_function.py) -/

/-- Properties of the single best hybrid-search hit; each property is
retrieved with dict get and may be missing. -/
structure PolicyProps where
  policy_id : Option String := none
  coverage_type : Option String := none
  deductible : Option ℚ := none
  coverage_limit : Option ℚ := none
  filing_deadline_days : Option ℚ := none
  content : Option String := none
deriving DecidableEq, Repr

/-- The policy_data mapping returned by query_policy. -/
structure PolicyData where
  found : Bool
  policy_id : Option String := none
  coverage_type : Option String := none
  deductible : Option ℚ := none
  coverage_limit : Option ℚ := none
  filing_deadline_days : Option ℚ := none
  content : Option String := none
  error : Option String := none
deriving DecidableEq, Repr

/-- Embedding of query_policy.  The Weaviate hybrid search is the external
policy-search capability; the oracle is ok with the best hit when the
result set is non-empty, ok none when it is empty, or error with the
exception text when the connection or query faults. -/
def query_policy (outcome : Except String (Option PolicyProps)) : PolicyData :=
  match outcome with
  | .ok (some p) =>
    { found := true, policy_id := p.policy_id, coverage_type := p.coverage_type,
      deductible := p.deductible, coverage_limit := p.coverage_limit,
      filing_deadline_days := p.filing_deadline_days, content := p.content }
  | .ok none => { found := false, error := some "Policy not found" }
  | .error e => { found := false, error := some e }

/-- Event consumed by the Policy stage: the Intake output context. -/
structure PolicyEvent where
  claim_id : Option String
  entities : Option Entities
  extracted_data : Option ExtractedData
deriving DecidableEq, Repr

/-- Audit details written by the Policy stage. -/
structure PolicyDetails where
  policy_number : String
  found : Bool
deriving DecidableEq, Repr

/-- AuditLog item written by the Policy stage. -/
structure PolicyAudit where
  log_id : String
  timestamp : String
  claim_id : Option String
  agent : String
  action : String
  status : String
  details : PolicyDetails
deriving DecidableEq, Repr

/-- The 200 payload returned by the Policy handler. -/
structure PolicyResult where
  statusCode : Nat
  claim_id : Option String
  policy_number : String
  policy_data : PolicyData
  entities : Entities
  extracted_data : Option ExtractedData
deriving DecidableEq, Repr

/-- The empty entities dict used as the event default. -/
def emptyEntities : Entities :=
  { policy_number := none, claimant_name := none, incident_date := none,
    incident_location := none, vehicle_info := none }

/-- Embedding of the Policy lambda_handler.  The policy number is the
extracted one unless missing or empty, in which case the default AUTO-001
is used; the audit status is success when found and not_found otherwise. -/
def policy_lambda_handler (event : PolicyEvent) (now : String)
    (outcome : Except String (Option PolicyProps)) : PolicyResult × PolicyAudit :=
  let entities := event.entities.getD emptyEntities
  let policy_number :=
    if falsyStr entities.policy_number then "AUTO-001"
    else entities.policy_number.getD ""
  let policy_data := query_policy outcome
  let audit : PolicyAudit :=
    { log_id := pyStr event.claim_id ++ "-policy", timestamp := now,
      claim_id := event.claim_id, agent := "policy", action := "query_policy",
      status := if policy_data.found then "success" else "not_found",
      details := { policy_number := policy_number, found := policy_data.found } }
  ({ statusCode := 200, claim_id := event.claim_id, policy_number := policy_number,
     policy_data := policy_data, entities := entities,
     extracted_data := event.extracted_data }, audit)

/-! ### Damage Assessment stage (lambda/damage/lambda_function.py) -/

/-- The damage_assessment mapping produced by assess_damage. -/
structure DamageAssessment where
  damage_detected : Bool
  severity : String
  estimated_repair_cost : ℚ
  damage_locations : List String
  confidence : ℚ
deriving DecidableEq, Repr

/-- Python str.lower restricted to ASCII, computed on the character list
so that it evaluates inside the kernel. -/
def strLower (s : String) : String := (s.toList.map Char.toLower).asString

/-- The fixed vocabulary of the damage heuristic. -/
def damageVocab : List String := ["car", "vehicle", "damage", "accident", "crash"]

/-- Embedding of assess_damage: damage is flagged when any label name,
lowercased, is a member of the fixed vocabulary; the rest of the output is
the placeholder shape. -/
def assess_damage (extracted_data : ExtractedData) : DamageAssessment :=
  let labels := extracted_data.labels.getD []
  let damage_detected := labels.any fun l => damageVocab.contains (strLower l.name)
  { damage_detected := damage_detected
    severity := if damage_detected then "MODERATE" else "NONE"
    estimated_repair_cost := if damage_detected then 2500 else 0
    damage_locations := if damage_detected then ["Front bumper", "Hood"] else []
    confidence := 3 / 4 }

/-- Event consumed by the Damage stage: the Policy output context. -/
structure DamageEvent where
  claim_id : Option String
  extracted_data : Option ExtractedData
  policy_data : Option PolicyData
  entities : Option Entities
deriving DecidableEq, Repr

/-- AuditLog item written by the Damage stage; its details are the whole
damage assessment. -/
structure DamageAudit where
  log_id : String
  timestamp : String
  claim_id : Option String
  agent : String
  action : String
  status : String
  details : DamageAssessment
deriving DecidableEq, Repr

/-- The 200 payload returned by the Damage handler. -/
structure DamageResult where
  statusCode : Nat
  claim_id : Option String
  damage_assessment : DamageAssessment
  policy_data : Option PolicyData
  entities : Option Entities
  extracted_data : ExtractedData
deriving DecidableEq, Repr

/-- Embedding of the Damage lambda_handler: always succeeds, always writes
one success audit entry, forwards the earlier context fields untouched. -/
def damage_lambda_handler (event : DamageEvent) (now : String) :
    DamageResult × DamageAudit :=
  let extracted_data := event.extracted_data.getD {}
  let damage_assessment := assess_damage extracted_data
  let audit : DamageAudit :=
    { log_id := pyStr event.claim_id ++ "-damage", timestamp := now,
      claim_id := event.claim_id, agent := "damage", action := "assess_damage",
      status := "success", details := damage_assessment }
  ({ statusCode := 200, claim_id := event.claim_id,
     damage_assessment := damage_assessment, policy_data := event.policy_data,
     entities := event.entities, extracted_data := extracted_data }, audit)

/-! ### Valuation stage (src/functions/valuation/lambda_function.py) -/

/-- The valuation mapping produced by get_vehicle_value. -/
structure ValuationData where
  vehicle_value : ℚ
  vehicle_info : Option String
  market_source : String
  confidence : ℚ
deriving DecidableEq, Repr

/-- Embedding of get_vehicle_value.  The entities argument is the possibly
defaulted dict: none stands for the empty-dict default, in which case the
vehicle_info key is absent and dict get falls back to the string Unknown;
when the full entities mapping is present the key exists and its value
(None included) is returned, so the fallback does not apply. -/
def get_vehicle_value (entities : Option Entities) : ValuationData :=
  let vehicle_info :=
    match entities with
    | none => some "Unknown"
    | some e => e.vehicle_info
  { vehicle_value := 25000, vehicle_info := vehicle_info,
    market_source := "Mock Data (KBB/NADA in production)", confidence := 4 / 5 }

/-- Event consumed by the Valuation stage: the Damage output context. -/
structure ValuationEvent where
  claim_id : Option String
  entities : Option Entities
  damage_assessment : Option DamageAssessment
  policy_data : Option PolicyData
  extracted_data : Option ExtractedData
deriving DecidableEq, Repr

/-- AuditLog item written by the Valuation stage; its details are the
whole valuation. -/
structure ValuationAudit where
  log_id : String
  timestamp : String
  claim_id : Option String
  agent : String
  action : String
  status : String
  details : ValuationData
deriving DecidableEq, Repr

/-- The 200 payload returned by the Valuation handler. -/
structure ValuationResult where
  statusCode : Nat
  claim_id : Option String
  valuation : ValuationData
  damage_assessment : Option DamageAssessment
  policy_data : Option PolicyData
  entities : Option Entities
  extracted_data : Option ExtractedData
deriving DecidableEq, Repr

/-- Embedding of the Valuation lambda_handler: always succeeds, always
writes one success audit entry, forwards the earlier context fields. -/
def valuation_lambda_handler (event : ValuationEvent) (now : String) :
    ValuationResult × ValuationAudit :=
  let valuation := get_vehicle_value event.entities
  let audit : ValuationAudit :=
    { log_id := pyStr event.claim_id ++ "-valuation", timestamp := now,
      claim_id := event.claim_id, agent := "valuation", action := "get_valuation",
      status := "success", details := valuation }
  ({ statusCode := 200, claim_id := event.claim_id, valuation := valuation,
     damage_assessment := event.damage_assessment, policy_data := event.policy_data,
     entities := event.entities, extracted_data := event.extracted_data }, audit)

/-! ### Decision stage (lambda/decision/lambda_function.py) -/

/-- A decision mapping as parsed from the reasoning response: arbitrary
JSON object, so every schema field is optional. -/
structure DecisionData where
  decision : Option String := none
  reasoning : Option String := none
  confidence : Option ℚ := none
  estimated_payout : Option ℚ := none
  deductible_applies : Option Bool := none
  required_actions : Option (List String) := none
  risk_factors : Option (List String) := none
deriving DecidableEq, Repr

/-- A Python value returned by json.loads of the model response: either a
JSON object (a dict, read through the DecisionData shape) or some other
JSON value, which has no get method; tyname records its Python type. -/
inductive PyDecision where
  | dict (d : DecisionData)
  | nonDict (tyname : String)
deriving DecidableEq, Repr

/-- Outcome of the reasoning call observed by invoke_claude: the Bedrock
invocation (or envelope handling) raised, json.loads of the content
raised, or parsing succeeded with some JSON value. -/
inductive ClaudeOutcome where
  | fault (e : String)
  | badJson (e : String)
  | parsed (v : PyDecision)
deriving DecidableEq, Repr

/-- The fallback decision object built in the except branch of
invoke_claude. -/
def decisionFallback (e : String) : DecisionData :=
  { decision := some "ERROR",
    reasoning := some ("Failed to process claim: " ++ e),
    confidence := some 0 }

/-- Embedding of invoke_claude: any exception from the invocation or from
json.loads is absorbed into the fallback object; a successful parse
returns the parsed value as is, whatever its shape. -/
def invoke_claude : ClaudeOutcome → PyDecision
  | .fault e => .dict (decisionFallback e)
  | .badJson e => .dict (decisionFallback e)
  | .parsed v => v

/-- Event consumed by the Decision stage: the accumulated context. -/
structure DecisionEvent where
  claim_id : Option String
  policy_data : Option PolicyData
  extracted_data : Option ExtractedData
  entities : Option Entities
deriving DecidableEq, Repr

/-- A versioned Claims-table record as committed by the Decision stage;
the serialized payloads are modelled by the values themselves, with none
standing for the empty-dict default taken at serialization time. -/
structure ClaimRecord where
  claim_id : Option String
  version : String
  status : String
  decision_data : DecisionData
  policy_data : Option PolicyData
  extracted_data : Option ExtractedData
  entities : Option Entities
  timestamp : String
deriving DecidableEq, Repr

/-- Audit details written by the Decision stage. -/
structure DecisionDetails where
  decision : Option String
  confidence : Option ℚ
deriving DecidableEq, Repr

/-- AuditLog item written by the Decision stage. -/
structure DecisionAudit where
  log_id : String
  timestamp : String
  claim_id : Option String
  agent : String
  action : String
  status : String
  details : DecisionDetails
deriving DecidableEq, Repr

/-- The decision report written to the reports bucket. -/
structure DecisionReport where
  claim_id : Option String
  timestamp : String
  decision : Option String
  reasoning : Option String
  confidence : Option ℚ
  estimated_payout : Option ℚ
  deductible_applies : Option Bool
  required_actions : List String
  risk_factors : List String
  policy_data : Option PolicyData
  entities : Option Entities
deriving DecidableEq, Repr

/-- Return value of the Decision handler: the 200 payload, or the 500
error produced when the parsed response is not a dict and the get call on
it raises AttributeError. -/
inductive DecisionResult where
  | ok (claim_id : Option String) (version : String) (decision : Option String)
      (decision_data : DecisionData) (report_s3_key : String)
  | err (claim_id : Option String) (error : String)
deriving DecidableEq, Repr

/-- HTTP-style status code of a decision result. -/
def DecisionResult.statusCode : DecisionResult → Nat
  | .ok _ _ _ _ _ => 200
  | .err _ _ => 500

/-- Everything the Decision handler produces: its return value and the
record, report and audit entry written on the success path (none on the
error path, which returns before any write). -/
structure DecisionOutput where
  result : DecisionResult
  record : Option ClaimRecord
  report : Option DecisionReport
  audit : Option DecisionAudit
deriving DecidableEq, Repr

/-- Embedding of the Decision lambda_handler.  now is the
datetime.now().isoformat() value used as both version and timestamp.  When
the parsed response is not a dict, the first attribute access on it raises
and the outer except returns a 500 with no record, report or audit written;
otherwise a record is committed with status taken from the decision value
(default ERROR), the report is written, one success audit entry is logged
and the 200 payload is returned. -/
def decision_lambda_handler (event : DecisionEvent) (now : String)
    (claude : ClaudeOutcome) : DecisionOutput :=
  match invoke_claude claude with
  | .nonDict tyname =>
    { result := .err event.claim_id (tyname ++ " object has no attribute get"),
      record := none, report := none, audit := none }
  | .dict d =>
    let version := now
    let record : ClaimRecord :=
      { claim_id := event.claim_id, version := version,
        status := d.decision.getD "ERROR", decision_data := d,
        policy_data := event.policy_data, extracted_data := event.extracted_data,
        entities := event.entities, timestamp := version }
    let report_key := pyStr event.claim_id ++ "/final_decision.json"
    let report : DecisionReport :=
      { claim_id := event.claim_id, timestamp := version, decision := d.decision,
        reasoning := d.reasoning, confidence := d.confidence,
        estimated_payout := d.estimated_payout,
        deductible_applies := d.deductible_applies,
        required_actions := d.required_actions.getD [],
        risk_factors := d.risk_factors.getD [],
        policy_data := event.policy_data, entities := event.entities }
    let audit : DecisionAudit :=
      { log_id := pyStr event.claim_id ++ "-decision", timestamp := version,
        claim_id := event.claim_id, agent := "decision",
        action := "make_decision", status := "success",
        details := { decision := d.decision, confidence := d.confidence } }
    { result := .ok event.claim_id version d.decision d report_key,
      record := some record, report := some report, audit := some audit }

/-! ### API layer (lambda/api/lambda_function.py) -/

/-- Summary entry produced by the claim-listing endpoint. -/
structure ClaimSummary where
  claim_id : Option String
  version : String
  status : String
  timestamp : String
  decision : Option String
  confidence : Option ℚ
deriving DecidableEq, Repr

/-- Projection of a stored record to a listing entry. -/
def toSummary (c : ClaimRecord) : ClaimSummary :=
  { claim_id := c.claim_id, version := c.version, status := c.status,
    timestamp := c.timestamp, decision := c.decision_data.decision,
    confidence := c.decision_data.confidence }

/-- Lexicographic code-point comparison of character lists, the order
Python uses to compare the version and timestamp strings. -/
def lexLt : List Char → List Char → Bool
  | [], [] => false
  | [], _ :: _ => true
  | _ :: _, [] => false
  | a :: as, b :: bs =>
    if a.toNat < b.toNat then true
    else if b.toNat < a.toNat then false
    else lexLt as bs

/-- Python string comparison s1 < s2. -/
def pyLt (a b : String) : Bool := lexLt a.toList b.toList

/-- One grouping step of list_claims: the first stored entry for a
claim_id wins unless a later scanned item has a strictly greater version,
in which case it replaces the entry in place, as the Python dict update
does. -/
def updLatest : List ClaimRecord → ClaimRecord → List ClaimRecord
  | [], it => [it]
  | x :: xs, it =>
    if x.claim_id = it.claim_id then
      if pyLt x.version it.version then it :: xs else x :: xs
    else x :: updLatest xs it

/-- Group the scanned items by claim_id keeping the greatest version. -/
def groupLatest (items : List ClaimRecord) : List ClaimRecord :=
  items.foldl updLatest []

/-- Stable descending sort by timestamp, as Python list.sort with
reverse=True: an element goes before another exactly when the other has a
strictly smaller timestamp does not hold the other way, preserving the
original order of equal timestamps. -/
def sortClaimsDesc (l : List ClaimSummary) : List ClaimSummary :=
  l.insertionSort fun a b => pyLt a.timestamp b.timestamp = false

/-- Embedding of list_claims.  The DynamoDB scan with Limit examines at
most limit items of the table in scan order, so the handler sees only the
first limit stored records; it groups them by claim_id keeping the
greatest version, formats summaries, sorts by timestamp descending and
truncates to limit. -/
def list_claims (store : List ClaimRecord) (limit : Nat) : List ClaimSummary :=
  let items := store.take limit
  let grouped := groupLatest items
  let claims := grouped.map toSummary
  (sortClaimsDesc claims).take limit

/-- Latest stored record for a claim_id: DynamoDB query with descending
sort order and Limit 1, i.e. the stored record with the greatest version
among those whose partition key equals the claim id. -/
def queryLatest (store : List ClaimRecord) (cid : String) : Option ClaimRecord :=
  (store.filter fun r => r.claim_id = some cid).foldl
    (fun acc r =>
      match acc with
      | none => some r
      | some m => if pyLt m.version r.version then some r else some m)
    none

/-- Body of the claim-status response: the still-processing shape returned
when no record exists, or the detail shape built from the latest record. -/
inductive GetClaimBody where
  | processing (claim_id status message : String)
  | found (claim_id : String) (version status timestamp : String)
      (decision reasoning : Option String)
      (confidence estimated_payout : Option ℚ)
      (entities : Option Entities)
deriving DecidableEq, Repr

/-- An API gateway response of the simplified handler: status code plus
JSON body. -/
structure ApiResponse where
  statusCode : Nat
  body : GetClaimBody
deriving DecidableEq, Repr

/-- Embedding of handle_get_claim (and the equivalent FastAPI get_claim):
when the query finds no record for the claim id, a 200 response with
status processing is returned; otherwise the latest record is rendered. -/
def handle_get_claim (store : List ClaimRecord) (claim_id : String) : ApiResponse :=
  match queryLatest store claim_id with
  | none =>
    { statusCode := 200,
      body := .processing claim_id "processing" "Claim is being processed" }
  | some c =>
    { statusCode := 200,
      body := .found claim_id c.version c.status c.timestamp
        c.decision_data.decision c.decision_data.reasoning
        c.decision_data.confidence c.decision_data.estimated_payout
        c.entities }

/-! ### Concrete sample data used by counterexamples and witnesses -/

/-- A minimal stored claim record with the given id and version. -/
def mkRec (cid : Option String) (v : String) : ClaimRecord :=
  { claim_id := cid, version := v, status := "APPROVED", decision_data := {},
    policy_data := none, extracted_data := none, entities := none,
    timestamp := "2025-10-22T00:00:00" }

/-- Eleven stored versions of one claim, in scan order, newest last: more
records than the scan limit examines. -/
def sampleStore11 : List ClaimRecord :=
  [mkRec (some "A") "v01", mkRec (some "A") "v02", mkRec (some "A") "v03",
   mkRec (some "A") "v04", mkRec (some "A") "v05", mkRec (some "A") "v06",
   mkRec (some "A") "v07", mkRec (some "A") "v08", mkRec (some "A") "v09",
   mkRec (some "A") "v10", mkRec (some "A") "v11"]

/-- Two stored versions of one claim. -/
def sampleStore2 : List ClaimRecord :=
  [mkRec (some "B") "v01", mkRec (some "B") "v02"]

/-- An intake event with both storage coordinates missing. -/
def eventNoLocation : IntakeEvent :=
  { bucket := none, key := none, claim_id := none }

/-- A well-formed direct-invocation intake event for a PDF upload. -/
def eventPdf : IntakeEvent :=
  { bucket := some "claimvoyant-raw-claims", key := some "CLAIM-8/claim.pdf",
    claim_id := some "CLAIM-8" }

/-! ### Order lemmas for the Python string comparison -/

theorem lexLt_irrefl (l : List Char) : lexLt l l = false := by
  induction l with
  | nil => rfl
  | cons a as ih => simp [lexLt, ih]

theorem pyLt_irrefl (s : String) : pyLt s s = false := lexLt_irrefl _

theorem lexLt_trans : ∀ a b c : List Char,
    lexLt a b = true → lexLt b c = true → lexLt a c = true := by
  intro a
  induction a with
  | nil =>
    intro b c hab hbc
    cases b with
    | nil => simp [lexLt] at hab
    | cons y bs =>
      cases c with
      | nil => simp [lexLt] at hbc
      | cons z cs => simp [lexLt]
  | cons x as ih =>
    intro b c hab hbc
    cases b with
    | nil => simp [lexLt] at hab
    | cons y bs =>
      cases c with
      | nil => simp [lexLt] at hbc
      | cons z cs =>
        simp only [lexLt] at hab hbc ⊢
        by_cases hxy : x.toNat < y.toNat
        · by_cases hyz : y.toNat < z.toNat
          · simp [Nat.lt_trans hxy hyz]
          · simp [hyz] at hbc
            rcases hbc with ⟨hzy, _⟩
            have hyz' : y.toNat = z.toNat := by omega
            simp [hyz' ▸ hxy]
        · simp [hxy] at hab
          rcases hab with ⟨hyx, htail⟩
          have hxy' : x.toNat = y.toNat := by omega
          by_cases hyz : y.toNat < z.toNat
          · simp [hxy' ▸ hyz]
          · simp [hyz] at hbc
            rcases hbc with ⟨hzy, htail2⟩
            have hyz' : y.toNat = z.toNat := by omega
            have hxz : ¬ x.toNat < z.toNat := by omega
            have hzx : ¬ z.toNat < x.toNat := by omega
            simp [hxz, hzx]
            exact ih bs cs htail htail2

theorem pyLt_trans {a b c : String} (h1 : pyLt a b = true) (h2 : pyLt b c = true) :
    pyLt a c = true := lexLt_trans _ _ _ h1 h2

/-! ### Lemmas about the grouping fold of list_claims -/

theorem mem_updLatest {acc : List ClaimRecord} {it x : ClaimRecord}
    (h : x ∈ updLatest acc it) : x ∈ acc ∨ x = it := by
  induction acc with
  | nil =>
    simp [updLatest] at h
    exact Or.inr h
  | cons a as ih =>
    simp only [updLatest] at h
    by_cases hk : a.claim_id = it.claim_id
    · simp only [hk, if_pos rfl] at h
      by_cases hv : pyLt a.version it.version
      · simp [hv] at h
        rcases h with h | h
        · exact Or.inr h
        · exact Or.inl (List.mem_cons_of_mem _ h)
      · simp [hv] at h
        rcases h with h | h
        · exact Or.inl (h ▸ List.mem_cons_self _ _)
        · exact Or.inl (List.mem_cons_of_mem _ h)
    · simp only [if_neg hk] at h
      rcases List.mem_cons.mp h with h | h
      · exact Or.inl (h ▸ List.mem_cons_self _ _)
      · rcases ih h with h | h
        · exact Or.inl (List.mem_cons_of_mem _ h)
        · exact Or.inr h

theorem claimId_mem_updLatest (acc : List ClaimRecord) (it : ClaimRecord) :
    it.claim_id ∈ (updLatest acc it).map (fun r => r.claim_id) := by
  induction acc with
  | nil => simp [updLatest]
  | cons a as ih =>
    simp only [updLatest]
    by_cases hk : a.claim_id = it.claim_id
    · by_cases hv : pyLt a.version it.version <;> simp [hk, hv]
    · simp only [if_neg hk, List.map_cons, List.mem_cons]
      exact Or.inr ih

theorem keys_mem_updLatest {acc : List ClaimRecord} {k : Option String}
    (it : ClaimRecord) (h : k ∈ acc.map (fun r => r.claim_id)) :
    k ∈ (updLatest acc it).map (fun r => r.claim_id) := by
  induction acc with
  | nil => simp at h
  | cons a as ih =>
    simp only [List.map_cons, List.mem_cons] at h
    simp only [updLatest]
    by_cases hk : a.claim_id = it.claim_id
    · rw [if_pos hk]
      by_cases hv : pyLt a.version it.version = true
      · rw [if_pos hv]
        simp only [List.map_cons, List.mem_cons]
        rcases h with h | h
        · exact Or.inl (h.trans hk)
        · exact Or.inr h
      · rw [if_neg hv]
        simp only [List.map_cons, List.mem_cons]
        exact h
    · rw [if_neg hk]
      simp only [List.map_cons, List.mem_cons]
      rcases h with h | h
      · exact Or.inl h
      · exact Or.inr (ih h)

theorem keys_updLatest_sub {acc : List ClaimRecord} {it : ClaimRecord}
    {k : Option String} (h : k ∈ (updLatest acc it).map (fun r => r.claim_id)) :
    k ∈ acc.map (fun r => r.claim_id) ∨ k = it.claim_id := by
  rcases List.mem_map.mp h with ⟨x, hx, hxk⟩
  rcases mem_updLatest hx with hx' | hx'
  · exact Or.inl (hxk ▸ List.mem_map_of_mem _ hx')
  · exact Or.inr (hxk ▸ hx' ▸ rfl)

theorem nodup_keys_updLatest {acc : List ClaimRecord} (it : ClaimRecord)
    (h : (acc.map (fun r => r.claim_id)).Nodup) :
    ((updLatest acc it).map (fun r => r.claim_id)).Nodup := by
  induction acc with
  | nil => simp [updLatest]
  | cons a as ih =>
    simp only [List.map_cons, List.nodup_cons] at h
    simp only [updLatest]
    by_cases hk : a.claim_id = it.claim_id
    · rw [if_pos hk]
      by_cases hv : pyLt a.version it.version = true
      · rw [if_pos hv]
        simp only [List.map_cons, List.nodup_cons]
        exact ⟨hk ▸ h.1, h.2⟩
      · rw [if_neg hv]
        simp only [List.map_cons, List.nodup_cons]
        exact h
    · rw [if_neg hk]
      simp only [List.map_cons, List.nodup_cons]
      refine ⟨fun hmem => ?_, ih h.2⟩
      rcases keys_updLatest_sub hmem with hmem | hmem
      · exact h.1 hmem
      · exact hk hmem

theorem updLatest_self_mem {l : List ClaimRecord} {it : ClaimRecord}
    (hmem : it ∈ updLatest l it)
    (hkey : it.claim_id ∈ l.map (fun r => r.claim_id)) :
    (∃ x ∈ l, x.claim_id = it.claim_id ∧ pyLt x.version it.version = true) ∨ it ∈ l := by
  induction l with
  | nil => simp at hkey
  | cons a as ih =>
    simp only [updLatest] at hmem
    by_cases hk : a.claim_id = it.claim_id
    · by_cases hv : pyLt a.version it.version = true
      · exact Or.inl ⟨a, List.mem_cons_self _ _, hk, hv⟩
      · rw [if_pos hk, if_neg hv] at hmem
        exact Or.inr hmem
    · rw [if_neg hk] at hmem
      rcases List.mem_cons.mp hmem with hmem' | hmem'
      · exact Or.inr (hmem' ▸ List.mem_cons_self _ _)
      · simp only [List.map_cons, List.mem_cons] at hkey
        rcases hkey with hkey | hkey
        · exact absurd hkey.symm hk
        · rcases ih hmem' hkey with h | h
          · rcases h with ⟨x, hx, hxs⟩
            exact Or.inl ⟨x, List.mem_cons_of_mem _ hx, hxs⟩
          · exact Or.inr (List.mem_cons_of_mem _ h)

theorem updLatest_dominates {l : List ClaimRecord} {it y : ClaimRecord}
    (hnd : (l.map (fun r => r.claim_id)).Nodup)
    (hmem : y ∈ updLatest l it) (hkey : y.claim_id = it.claim_id) :
    pyLt y.version it.version = false := by
  induction l with
  | nil =>
    simp [updLatest] at hmem
    exact hmem ▸ pyLt_irrefl _
  | cons a as ih =>
    simp only [List.map_cons, List.nodup_cons] at hnd
    simp only [updLatest] at hmem
    by_cases hk : a.claim_id = it.claim_id
    · by_cases hv : pyLt a.version it.version = true
      · rw [if_pos hk, if_pos hv] at hmem
        rcases List.mem_cons.mp hmem with h | h
        · exact h ▸ pyLt_irrefl _
        · have hmm : y.claim_id ∈ as.map (fun r => r.claim_id) :=
            List.mem_map_of_mem _ h
          rw [hkey, ← hk] at hmm
          exact absurd hmm hnd.1
      · rw [if_pos hk, if_neg hv] at hmem
        rcases List.mem_cons.mp hmem with h | h
        · exact h ▸ Bool.eq_false_iff.mpr hv
        · have hmm : y.claim_id ∈ as.map (fun r => r.claim_id) :=
            List.mem_map_of_mem _ h
          rw [hkey, ← hk] at hmm
          exact absurd hmm hnd.1
    · rw [if_neg hk] at hmem
      rcases List.mem_cons.mp hmem with h | h
      · exact absurd (h ▸ hkey) hk
      · exact ih hnd.2 h

theorem updLatest_pres {l : List ClaimRecord} {it : ClaimRecord}
    {k : Option String} {v : String}
    (h1 : ∀ x ∈ l, x.claim_id = k → pyLt x.version v = false)
    (h2 : k ∈ l.map (fun r => r.claim_id)) :
    ∀ y ∈ updLatest l it, y.claim_id = k → pyLt y.version v = false := by
  intro y hy hyk
  rcases mem_updLatest hy with hyl | rfl
  · exact h1 y hyl hyk
  · rcases updLatest_self_mem hy (hyk ▸ h2) with ⟨x, hx, hxk, hxv⟩ | hyl
    · have hxv' : pyLt x.version v = false := h1 x hx (hxk.trans hyk)
      by_contra hc
      have hc' : pyLt y.version v = true := by
        cases hvv : pyLt y.version v with
        | false => exact absurd hvv hc
        | true => rfl
      exact absurd (pyLt_trans hxv hc') (by simp [hxv'])
    · exact h1 y hyl hyk

theorem foldl_updLatest_pres {items : List ClaimRecord} :
    ∀ {l : List ClaimRecord} {k : Option String} {v : String},
    (∀ x ∈ l, x.claim_id = k → pyLt x.version v = false) →
    k ∈ l.map (fun r => r.claim_id) →
    ∀ y ∈ items.foldl updLatest l, y.claim_id = k → pyLt y.version v = false := by
  induction items with
  | nil => intro l k v h1 _ y hy; exact h1 y hy
  | cons it rest ih =>
    intro l k v h1 h2 y hy
    exact ih (updLatest_pres h1 h2) (keys_mem_updLatest it h2) y hy

theorem mem_foldl_updLatest {items : List ClaimRecord} :
    ∀ {l : List ClaimRecord} {x : ClaimRecord},
    x ∈ items.foldl updLatest l → x ∈ l ∨ x ∈ items := by
  induction items with
  | nil => intro l x h; exact Or.inl h
  | cons it rest ih =>
    intro l x h
    rcases ih h with h' | h'
    · rcases mem_updLatest h' with h'' | h''
      · exact Or.inl h''
      · exact Or.inr (h'' ▸ List.mem_cons_self _ _)
    · exact Or.inr (List.mem_cons_of_mem _ h')

theorem nodup_keys_foldl_updLatest {items : List ClaimRecord} :
    ∀ {l : List ClaimRecord}, (l.map (fun r => r.claim_id)).Nodup →
    ((items.foldl updLatest l).map (fun r => r.claim_id)).Nodup := by
  induction items with
  | nil => intro l h; exact h
  | cons it rest ih => intro l h; exact ih (nodup_keys_updLatest it h)

theorem foldl_updLatest_max {items : List ClaimRecord} :
    ∀ {l : List ClaimRecord}, (l.map (fun r => r.claim_id)).Nodup →
    ∀ x ∈ items.foldl updLatest l, ∀ s ∈ items,
      s.claim_id = x.claim_id → pyLt x.version s.version = false := by
  induction items with
  | nil => intro l _ x _ s hs; exact absurd hs (List.not_mem_nil s)
  | cons it rest ih =>
    intro l hnd x hx s hs hsk
    rcases List.mem_cons.mp hs with rfl | hs'
    · exact foldl_updLatest_pres
        (fun y hy hyk => updLatest_dominates hnd hy hyk)
        (claimId_mem_updLatest l s) x hx hsk.symm
    · exact ih (nodup_keys_updLatest it hnd) x hx s hs' hsk

/-- Every grouped entry is one of the scanned items and dominates every
scanned item sharing its claim id. -/
theorem groupLatest_spec (items : List ClaimRecord) :
    ((groupLatest items).map (fun r => r.claim_id)).Nodup ∧
    ∀ x ∈ groupLatest items, x ∈ items ∧ ∀ s ∈ items,
      s.claim_id = x.claim_id → pyLt x.version s.version = false := by
  refine ⟨nodup_keys_foldl_updLatest (by simp), fun x hx => ⟨?_, ?_⟩⟩
  · rcases mem_foldl_updLatest hx with h | h
    · exact absurd h (List.not_mem_nil x)
    · exact h
  · exact foldl_updLatest_max (by simp) x hx

/-! ### Claim theorems -/

/-- C1 counterexample: invoking the Intake stage with bucket and key both
missing makes the handler return its failure result with an empty audit
list — no audit entry recording the fault is written, refuting the claim
that exactly one entry is written before the failure return. -/
theorem intake_missing_location_writes_no_audit :
    (intake_lambda_handler eventNoLocation "20251022000000" "job-1"
      (.error "unused") (.error "unused") true).audit = [] ∧
    (intake_lambda_handler eventNoLocation "20251022000000" "job-1"
      (.error "unused") (.error "unused") true).result =
      .err "Missing bucket or key in event" := ⟨rfl, rfl⟩

/-- C1 (amended): on a missing or empty bucket or key the Intake stage
returns the failure result without writing any audit entry; on every
invocation that passes input validation it writes exactly one audit entry
before returning. -/
theorem intake_audit_entry_iff_input_valid :
    ∀ (event : IntakeEvent) (now job_id : String) (pdf : Except String String)
      (img : Except String (List Label × String)) (w : Bool),
    ((falsyStr event.bucket || falsyStr event.key) = true →
      (intake_lambda_handler event now job_id pdf img w).result =
        .err "Missing bucket or key in event" ∧
      (intake_lambda_handler event now job_id pdf img w).audit = []) ∧
    ((falsyStr event.bucket || falsyStr event.key) = false →
      (intake_lambda_handler event now job_id pdf img w).audit.length = 1) := by
  intro event now job_id pdf img w
  constructor
  · intro h
    constructor <;> simp [intake_lambda_handler, h]
  · intro h
    simp [intake_lambda_handler, h]

/-- C1 witness: both branches of the amended statement evaluated at
concrete events. -/
theorem intake_audit_entry_iff_input_valid_witness :
    (intake_lambda_handler eventNoLocation "t" "j" (.error "x") (.error "y") true).audit = [] ∧
    (intake_lambda_handler eventPdf "t" "j" (.ok "hello") (.error "y") true).audit.length = 1 :=
  ⟨((intake_audit_entry_iff_input_valid eventNoLocation "t" "j" (.error "x") (.error "y")
      true).1 (by decide)).2,
   (intake_audit_entry_iff_input_valid eventPdf "t" "j" (.ok "hello") (.error "y")
      true).2 (by decide)⟩

/-- C2 counterexample: a reasoning response whose text parses as JSON but
is not an object (for example a JSON array) is not parseable as the
decision schema, yet the stage does not substitute the fallback: the get
attribute access raises, the handler returns a 500 failure and commits no
claim record, refuting the claim for this class of responses. -/
theorem decision_nonobject_response_propagates_fault :
    decision_lambda_handler ⟨some "CLAIM-X", none, none, none⟩ "2025-10-22T01:02:03"
      (.parsed (.nonDict "list")) =
      { result := .err (some "CLAIM-X") "list object has no attribute get",
        record := none, report := none, audit := none } ∧
    (decision_lambda_handler ⟨some "CLAIM-X", none, none, none⟩ "2025-10-22T01:02:03"
      (.parsed (.nonDict "list"))).result.statusCode = 500 := ⟨rfl, rfl⟩

/-- C2 (amended): when the reasoning call raises a fault or returns text
that json.loads cannot parse at all, the Decision stage absorbs the fault:
it commits a claim record whose decision_data has decision ERROR,
confidence 0 and a non-empty reasoning string, with record status ERROR,
and returns a success result.  Text that parses as JSON but not as an
object instead yields a 500 with no commit (see the counterexample). -/
theorem decision_fallback_on_fault_or_bad_json :
    ∀ (event : DecisionEvent) (now e : String) (o : ClaudeOutcome),
    o = .fault e ∨ o = .badJson e →
    ∃ rec, (decision_lambda_handler event now o).record = some rec ∧
      rec.decision_data.decision = some "ERROR" ∧
      rec.decision_data.confidence = some 0 ∧
      (∃ r, rec.decision_data.reasoning = some r ∧ r ≠ "") ∧
      rec.status = "ERROR" ∧
      (decision_lambda_handler event now o).result.statusCode = 200 := by
  intro event now e o ho
  have hne : ("Failed to process claim: " ++ e) ≠ "" := by
    intro hc
    have hlen := congrArg String.length hc
    rw [String.length_append] at hlen
    have h25 : ("Failed to process claim: ").length = 25 := rfl
    have h0 : ("" : String).length = 0 := rfl
    rw [h25, h0] at hlen
    omega
  rcases ho with rfl | rfl <;>
    exact ⟨_, rfl, rfl, rfl, ⟨_, rfl, hne⟩, rfl, rfl⟩

/-- C2 witness: the amended statement evaluated at a concrete faulting
invocation. -/
theorem decision_fallback_on_fault_or_bad_json_witness :
    ∃ rec, (decision_lambda_handler ⟨some "CLAIM-X", none, none, none⟩
        "2025-10-22T01:02:03" (.fault "boom")).record = some rec ∧
      rec.decision_data.decision = some "ERROR" ∧
      rec.decision_data.confidence = some 0 ∧
      (∃ r, rec.decision_data.reasoning = some r ∧ r ≠ "") ∧
      rec.status = "ERROR" ∧
      (decision_lambda_handler ⟨some "CLAIM-X", none, none, none⟩
        "2025-10-22T01:02:03" (.fault "boom")).result.statusCode = 200 :=
  decision_fallback_on_fault_or_bad_json ⟨some "CLAIM-X", none, none, none⟩
    "2025-10-22T01:02:03" "boom" (.fault "boom") (Or.inl rfl)

/-- C3 counterexample: a lookup fault is audited with status not_found,
not error, so the claimed three-way distinction does not exist. -/
theorem policy_lookup_fault_audited_not_found :
    (policy_lambda_handler ⟨some "CLAIM-1", none, none⟩ "t0"
      (.error "connection refused")).2.status = "not_found" ∧
    ("not_found" : String) ≠ "error" := ⟨rfl, by decide⟩

/-- C3 (amended): the Policy stage audit status is success when the lookup
finds a policy and not_found both when the lookup completes with no match
and when the lookup itself faults; the audit status never distinguishes a
lookup fault from a missing policy (only the error text inside the
returned policy_data differs). -/
theorem policy_audit_status_two_valued :
    ∀ (event : PolicyEvent) (now : String),
    (∀ e, (policy_lambda_handler event now (.error e)).2.status = "not_found") ∧
    ((policy_lambda_handler event now (.ok none)).2.status = "not_found") ∧
    (∀ props, (policy_lambda_handler event now (.ok (some props))).2.status = "success") :=
  fun _ _ => ⟨fun _ => rfl, rfl, fun _ => rfl⟩

/-- C4 counterexample: on the specified input the extracted policy number
is not AUTO-042, because group 1 of the pattern spans the whole POLICY
alternative including the keyword and separator. -/
theorem extract_entities_policy_number_keeps_keyword :
    (extract_entities "Policy: AUTO-042 reported incident 2025-10-22").policy_number ≠
      some "AUTO-042" := by decide

/-- C4 (amended): on the input of the claim the extraction yields
policy_number Policy: AUTO-042 (the full group-1 match, keyword included)
and incident_date 2025-10-22; only the first match of each pattern is kept
and absence of a match leaves the entity null without raising. -/
theorem extract_entities_first_match_values :
    (extract_entities "Policy: AUTO-042 reported incident 2025-10-22").policy_number =
      some "Policy: AUTO-042" ∧
    (extract_entities "Policy: AUTO-042 reported incident 2025-10-22").incident_date =
      some "2025-10-22" ∧
    (extract_entities "AUTO-001 and AUTO-002").policy_number = some "AUTO-001" ∧
    (extract_entities "dated 2025-10-22 and 2025-12-01").incident_date = some "2025-10-22" ∧
    extract_entities "hello world" =
      { policy_number := none, claimant_name := none, incident_date := none,
        incident_location := none, vehicle_info := none } :=
  ⟨by decide, by decide, by decide, by decide, by decide⟩

/-- C5 (confirmed): the Policy, Damage and Valuation stages forward every
context field populated by an earlier stage unchanged in their output
context. -/
theorem stages_forward_predecessor_fields :
    (∀ (ev : PolicyEvent) (now : String) (o : Except String (Option PolicyProps)),
      (policy_lambda_handler ev now o).1.claim_id = ev.claim_id ∧
      (policy_lambda_handler ev now o).1.extracted_data = ev.extracted_data ∧
      ∀ e, ev.entities = some e → (policy_lambda_handler ev now o).1.entities = e) ∧
    (∀ (ev : DamageEvent) (now : String),
      (damage_lambda_handler ev now).1.claim_id = ev.claim_id ∧
      (damage_lambda_handler ev now).1.policy_data = ev.policy_data ∧
      (damage_lambda_handler ev now).1.entities = ev.entities ∧
      ∀ x, ev.extracted_data = some x → (damage_lambda_handler ev now).1.extracted_data = x) ∧
    (∀ (ev : ValuationEvent) (now : String),
      (valuation_lambda_handler ev now).1.claim_id = ev.claim_id ∧
      (valuation_lambda_handler ev now).1.policy_data = ev.policy_data ∧
      (valuation_lambda_handler ev now).1.damage_assessment = ev.damage_assessment ∧
      (valuation_lambda_handler ev now).1.entities = ev.entities ∧
      (valuation_lambda_handler ev now).1.extracted_data = ev.extracted_data) := by
  refine ⟨fun ev now o => ⟨rfl, rfl, fun e he => ?_⟩,
    fun ev now => ⟨rfl, rfl, rfl, fun x hx => ?_⟩,
    fun ev now => ⟨rfl, rfl, rfl, rfl, rfl⟩⟩
  · simp [policy_lambda_handler, he]
  · simp [damage_lambda_handler, hx]

/-- C5 witness: the populated-field implications evaluated at concrete
events. -/
theorem stages_forward_predecessor_fields_witness :
    (policy_lambda_handler ⟨some "CLAIM-1", some emptyEntities, none⟩ "t" (.ok none)).1.entities
      = emptyEntities ∧
    (damage_lambda_handler ⟨some "CLAIM-1", some {}, none, none⟩ "t").1.extracted_data = {} :=
  ⟨(stages_forward_predecessor_fields.1 ⟨some "CLAIM-1", some emptyEntities, none⟩ "t"
      (.ok none)).2.2 emptyEntities rfl,
   (stages_forward_predecessor_fields.2.1 ⟨some "CLAIM-1", some {}, none, none⟩ "t").2.2.2
      {} rfl⟩

/-- C7 (confirmed): the Car label yields a detected MODERATE assessment at
cost 2500 and the Tree label yields an undetected NONE assessment at cost
0; in general damage is flagged exactly when some label name lowercases to
a member of the fixed vocabulary. -/
theorem assess_damage_heuristic_spec :
    assess_damage { labels := some [{ name := "Car", confidence := 912 / 10 }] } =
      { damage_detected := true, severity := "MODERATE", estimated_repair_cost := 2500,
        damage_locations := ["Front bumper", "Hood"], confidence := 3 / 4 } ∧
    assess_damage { labels := some [{ name := "Tree", confidence := 80 }] } =
      { damage_detected := false, severity := "NONE", estimated_repair_cost := 0,
        damage_locations := [], confidence := 3 / 4 } ∧
    ∀ ed : ExtractedData, (assess_damage ed).damage_detected = true ↔
      ∃ l ∈ ed.labels.getD [], strLower l.name ∈ damageVocab := by
  refine ⟨rfl, rfl, fun ed => ?_⟩
  simp [assess_damage, List.any_eq_true, List.contains, List.elem_iff]

/-- C7 witness: the general characterisation applied at a concrete label
list. -/
theorem assess_damage_heuristic_spec_witness :
    (assess_damage { labels := some [{ name := "Car", confidence := 912 / 10 }] }).damage_detected
      = true :=
  (assess_damage_heuristic_spec.2.2 _).mpr
    ⟨{ name := "Car", confidence := 912 / 10 }, List.Mem.head _, by decide⟩

/-- C8 counterexample: with the content-index write failing, the Intake
stage produces exactly the same audit entry and the same result as with
the write succeeding, so the indexing failure is not noted in the audit
details (nor anywhere else observable). -/
theorem intake_index_failure_invisible_in_audit :
    (intake_lambda_handler eventPdf "20251022000000" "job-1"
      (.ok "Policy: AUTO-042 reported incident 2025-10-22") (.error "unused") false).audit =
    (intake_lambda_handler eventPdf "20251022000000" "job-1"
      (.ok "Policy: AUTO-042 reported incident 2025-10-22") (.error "unused") true).audit ∧
    (intake_lambda_handler eventPdf "20251022000000" "job-1"
      (.ok "Policy: AUTO-042 reported incident 2025-10-22") (.error "unused") false).result =
    (intake_lambda_handler eventPdf "20251022000000" "job-1"
      (.ok "Policy: AUTO-042 reported incident 2025-10-22") (.error "unused") true).result :=
  ⟨rfl, rfl⟩

/-- C8 (amended): an indexing failure never fails the Intake stage — on
validated input it still returns a 200 result — but the failure is not
noted in the audit details: audit entry and result are identical whether
the index write succeeded or failed. -/
theorem intake_index_failure_swallowed_unnoted :
    ∀ (event : IntakeEvent) (now job_id : String) (pdf : Except String String)
      (img : Except String (List Label × String)),
    (intake_lambda_handler event now job_id pdf img false).audit =
      (intake_lambda_handler event now job_id pdf img true).audit ∧
    (intake_lambda_handler event now job_id pdf img false).result =
      (intake_lambda_handler event now job_id pdf img true).result ∧
    ((falsyStr event.bucket || falsyStr event.key) = false →
      (intake_lambda_handler event now job_id pdf img false).result.statusCode = 200) := by
  intro event now job_id pdf img
  refine ⟨?_, ?_, ?_⟩
  · by_cases h : (falsyStr event.bucket || falsyStr event.key) = true <;>
      simp [intake_lambda_handler, h]
  · by_cases h : (falsyStr event.bucket || falsyStr event.key) = true <;>
      simp [intake_lambda_handler, h]
  · intro h
    simp [intake_lambda_handler, h, IntakeResult.statusCode]

/-- C8 witness: the success-despite-failed-indexing branch evaluated at a
concrete validated event. -/
theorem intake_index_failure_swallowed_unnoted_witness :
    (intake_lambda_handler eventPdf "t" "j" (.ok "hello") (.error "y") false).result.statusCode
      = 200 :=
  (intake_index_failure_swallowed_unnoted eventPdf "t" "j" (.ok "hello") (.error "y")).2.2
    (by decide)

/-- C9 counterexample: for an entities mapping produced by the pipeline
the valuation vehicle_info echo is null, not the string Unknown, because
the vehicle_info key is present with value None and the dict-get default
does not apply. -/
theorem valuation_echo_is_null_not_unknown :
    (get_vehicle_value (some (extract_entities "Policy: AUTO-042"))).vehicle_info ≠
      some "Unknown" := by decide

/-- C9 (amended): entity extraction always returns the five-key mapping
with claimant_name, incident_location and vehicle_info null; consequently
for every pipeline-produced entities mapping the valuation has the null
vehicle_info echo (the Unknown default applies only when the entities
mapping itself is absent) and the constant vehicle value 25000. -/
theorem entities_three_null_and_constant_valuation :
    ∀ text : String,
      (extract_entities text).claimant_name = none ∧
      (extract_entities text).incident_location = none ∧
      (extract_entities text).vehicle_info = none ∧
      get_vehicle_value (some (extract_entities text)) =
        { vehicle_value := 25000, vehicle_info := none,
          market_source := "Mock Data (KBB/NADA in production)", confidence := 4 / 5 } :=
  fun _ => ⟨rfl, rfl, rfl, rfl⟩

/-- C10 (confirmed): for a claim_id with no stored record the claim-status
query returns a 200 response with status processing, indistinguishable
from a claim still being processed. -/
theorem get_claim_unknown_returns_processing :
    ∀ (store : List ClaimRecord) (cid : String),
    (∀ r ∈ store, r.claim_id ≠ some cid) →
    handle_get_claim store cid =
      { statusCode := 200,
        body := .processing cid "processing" "Claim is being processed" } := by
  intro store cid h
  have hf : (store.filter fun r => r.claim_id = some cid) = [] :=
    List.filter_eq_nil_iff.mpr (fun a ha => by simp [h a ha])
  simp [handle_get_claim, queryLatest, hf]

/-- C10 witness: the processing response for an unknown claim id against a
concrete non-empty store. -/
theorem get_claim_unknown_returns_processing_witness :
    handle_get_claim sampleStore2 "A" =
      { statusCode := 200,
        body := .processing "A" "processing" "Claim is being processed" } :=
  get_claim_unknown_returns_processing sampleStore2 "A" (by decide)

/-- C6 counterexample: with eleven stored versions of one claim the scan
with limit 10 never examines the eleventh, so the single returned entry
carries version v10 although a strictly greater version v11 is stored for
the same claim_id, refuting maximality over all stored records. -/
theorem list_claims_misses_unscanned_version :
    (list_claims sampleStore11 10).map (fun c => c.version) = ["v10"] ∧
    (∃ s ∈ sampleStore11, s.claim_id = some "A" ∧ pyLt "v10" s.version = true) :=
  ⟨by decide, by decide⟩

/-- C6 (amended): listing claims with limit 10 returns at most one entry
per distinct claim_id, and each returned entry is the maximum-version
record among the scanned records, i.e. the first ten stored records in
scan order (hence among all stored records whenever the store holds at
most ten). -/
theorem list_claims_unique_latest_scanned (store : List ClaimRecord) :
    ((list_claims store 10).map (fun c => c.claim_id)).Nodup ∧
    ∀ c ∈ list_claims store 10, ∃ r ∈ store.take 10, toSummary r = c ∧
      ∀ s ∈ store.take 10, s.claim_id = r.claim_id → pyLt r.version s.version = false := by
  have hspec := groupLatest_spec (store.take 10)
  have hperm : List.Perm (sortClaimsDesc ((groupLatest (store.take 10)).map toSummary))
      ((groupLatest (store.take 10)).map toSummary) :=
    List.perm_insertionSort _ _
  constructor
  · have h1 : (((groupLatest (store.take 10)).map toSummary).map
        (fun c => c.claim_id)).Nodup := by
      rw [List.map_map]
      exact hspec.1
    have h2 : ((sortClaimsDesc ((groupLatest (store.take 10)).map toSummary)).map
        (fun c => c.claim_id)).Nodup :=
      ((hperm.map (fun c => c.claim_id)).nodup_iff).mpr h1
    have h3 := List.map_take (fun c : ClaimSummary => c.claim_id)
      (sortClaimsDesc ((groupLatest (store.take 10)).map toSummary)) 10
    show ((list_claims store 10).map (fun c => c.claim_id)).Nodup
    unfold list_claims
    rw [h3]
    exact h2.sublist (List.take_sublist _ _)
  · intro c hc
    have hc1 : c ∈ sortClaimsDesc ((groupLatest (store.take 10)).map toSummary) :=
      List.take_subset _ _ hc
    have hc2 : c ∈ (groupLatest (store.take 10)).map toSummary :=
      hperm.mem_iff.mp hc1
    rcases List.mem_map.mp hc2 with ⟨r, hr, hrc⟩
    exact ⟨r, (hspec.2 r hr).1, hrc, (hspec.2 r hr).2⟩

/-- C6 witness: the amended statement applied to a concrete two-record
store, instantiated at the returned summary. -/
theorem list_claims_unique_latest_scanned_witness :
    ∃ r ∈ sampleStore2.take 10, toSummary r = toSummary (mkRec (some "B") "v02") ∧
      ∀ s ∈ sampleStore2.take 10, s.claim_id = r.claim_id →
        pyLt r.version s.version = false :=
  (list_claims_unique_latest_scanned sampleStore2).2
    (toSummary (mkRec (some "B") "v02")) (by decide)
